import Mathlib

/-!
Shallow embedding of the repository's Python static-analysis scripts
(`src/analysis/complexity_analyzer.py`, `src/analysis/security_analyzer.py`)
and proofs settling the specification claims.

The Python AST subset below covers every node kind the two analyzers react
to, plus the generic containers they traverse through.  Node kinds that the
analyzers merely pass through without reading any field (e.g. `ast.Expr`,
`ast.BinOp`, `ast.Attribute`) are modelled with exactly the child fields that
`ast.NodeVisitor.generic_visit` recurses into, in the AST's field order.
Fields neither analyzer can observe (function argument lists, exception
handler type expressions, `while`/`for` else-bodies, class bases) are omitted;
`generic_visit` would traverse them but no visitor method reads them, so they
cannot change any analyzer output.  Python `int` is modelled as `Int`,
Python `float` as `ℚ`, and a raised exception in the security traversal as
`Option.none` (the complexity traversal is total in the source and stays
total here).
-/

/-- Binary operator kinds distinguished by the security analyzer's
`visit_Call` SQL-injection check (`ast.Add`, `ast.Mod`, anything else). -/
inductive BinKind where
  | add
  | mod
  | other
deriving DecidableEq, Repr

/-- Subset of the Python AST traversed by the two analyzers.
`lineno` fields are carried exactly where the security analyzer reads them
(`Import`, `Call`, `Str`).  A `try` statement's handlers are modelled by their
bodies (`generic_visit` descends into each `ExceptHandler`'s body; neither
analyzer reads a handler's type or name). -/
inductive Node where
  | module (body : List Node)
  | functionDef (name : String) (body : List Node) (decoratorList : List Node)
  | classDef (name : String) (body : List Node)
  | ifStmt (test : Node) (body : List Node) (orelse : List Node)
  | whileStmt (test : Node) (body : List Node)
  | forStmt (iter : Node) (body : List Node)
  | tryStmt (body : List Node) (handlers : List (List Node))
      (orelse : List Node) (finalbody : List Node)
  | boolOp (values : List Node)
  | call (func : Node) (args : List Node) (lineno : Int)
  | attribute (value : Node) (attr : String)
  | binOp (left : Node) (op : BinKind) (right : Node)
  | exprStmt (value : Node)
  | importStmt (names : List String) (lineno : Int)
  | importFrom (moduleName : String) (names : List String) (lineno : Int)
  | strLit (s : String) (lineno : Int)
  | name (id : String)
  | pass

namespace ComplexityAnalyzer

/-- Mutable attributes of the `ComplexityAnalyzer` visitor
(`complexity_analyzer.py` lines 48-55). -/
structure CState where
  complexity : Int
  cognitive_complexity : Int
  nesting_level : Int
  halstead_operators : List String
  halstead_operands : List String
  functions : List String
  classes : List String
deriving DecidableEq, Repr

/-- `ComplexityAnalyzer.__init__`: base complexity 1, everything else empty. -/
def initState : CState :=
  { complexity := 1
    cognitive_complexity := 0
    nesting_level := 0
    halstead_operators := []
    halstead_operands := []
    functions := []
    classes := [] }

mutual

/-- One `ast.NodeVisitor.visit` dispatch of `ComplexityAnalyzer`:
the node kinds with a `visit_*` method follow that method's body
(`complexity_analyzer.py` lines 57-116); every other kind falls through to
`generic_visit`, which only recurses into the children in field order. -/
def visit (st : CState) : Node → CState
  | .module body => visitList st body
  | .functionDef nm body decoratorList =>
      let st0 := { st with functions := st.functions ++ [nm] }
      let old_complexity := st0.complexity
      let old_cognitive := st0.cognitive_complexity
      let st1 := { st0 with complexity := 1, cognitive_complexity := 0 }
      let st2 := visitList (visitList st1 body) decoratorList
      { st2 with complexity := old_complexity + st2.complexity
                 cognitive_complexity := old_cognitive + st2.cognitive_complexity }
  | .classDef nm body =>
      visitList { st with classes := st.classes ++ [nm] } body
  | .ifStmt test body orelse =>
      let st1 := { st with
        complexity := st.complexity + 1
        cognitive_complexity := st.cognitive_complexity + 1 + st.nesting_level }
      let st2 := { st1 with nesting_level := st1.nesting_level + 1 }
      let st3 := visitList (visitList (visit st2 test) body) orelse
      { st3 with nesting_level := st3.nesting_level - 1 }
  | .whileStmt test body =>
      let st1 := { st with
        complexity := st.complexity + 1
        cognitive_complexity := st.cognitive_complexity + 1 + st.nesting_level }
      let st2 := { st1 with nesting_level := st1.nesting_level + 1 }
      let st3 := visitList (visit st2 test) body
      { st3 with nesting_level := st3.nesting_level - 1 }
  | .forStmt iter body =>
      let st1 := { st with
        complexity := st.complexity + 1
        cognitive_complexity := st.cognitive_complexity + 1 + st.nesting_level }
      let st2 := { st1 with nesting_level := st1.nesting_level + 1 }
      let st3 := visitList (visit st2 iter) body
      { st3 with nesting_level := st3.nesting_level - 1 }
  | .tryStmt body handlers orelse finalbody =>
      let st1 := { st with
        complexity := st.complexity + handlers.length + orelse.length + finalbody.length
        cognitive_complexity := st.cognitive_complexity + 1 + st.nesting_level }
      let st2 := { st1 with nesting_level := st1.nesting_level + 1 }
      let st3 :=
        visitList (visitList (visitHandlers (visitList st2 body) handlers) orelse) finalbody
      { st3 with nesting_level := st3.nesting_level - 1 }
  | .boolOp values =>
      let st1 := { st with
        complexity := st.complexity + values.length - 1
        cognitive_complexity := st.cognitive_complexity + values.length - 1 }
      visitList st1 values
  | .call func args _ => visitList (visit st func) args
  | .attribute value _ => visit st value
  | .binOp left _ right => visit (visit st left) right
  | .exprStmt value => visit st value
  | .importStmt _ _ => st
  | .importFrom _ _ _ => st
  | .strLit _ _ => st
  | .name _ => st
  | .pass => st

/-- Visiting a list of sibling nodes left to right (how `generic_visit`
iterates a list-valued AST field). -/
def visitList (st : CState) : List Node → CState
  | [] => st
  | n :: ns => visitList (visit st n) ns

/-- Visiting the handler clauses of a `try` (each handler's body in order). -/
def visitHandlers (st : CState) : List (List Node) → CState
  | [] => st
  | h :: hs => visitHandlers (visitList st h) hs

end

end ComplexityAnalyzer

/-! ### Python string primitives

The analyzers use Python's `in` (substring), `str.lower`, `str.strip`,
`str.startswith` and `re.search` with four fixed credential patterns.  They
are modelled here directly over `List Char` so that every definition is
executable by the kernel. -/

/-- Python whitespace as used by `str.strip` and the `\s` regex class. -/
def isPySpace (c : Char) : Bool :=
  c = ' ' || c = '\t' || c = '\n' || c = '\r' || c = Char.ofNat 11 || c = Char.ofNat 12

/-- Python `str.strip()`. -/
def pyStrip (s : String) : String :=
  ⟨((s.data.dropWhile isPySpace).reverse.dropWhile isPySpace).reverse⟩

/-- Python `str.lower()` (ASCII case folding, which is all the analyzers use). -/
def pyLower (s : String) : String :=
  ⟨s.data.map Char.toLower⟩

/-- Occurrence of `needle` as a contiguous sublist of the remaining text. -/
def subIn (needle : List Char) : List Char → Bool
  | [] => needle.isEmpty
  | c :: rest => needle.isPrefixOf (c :: rest) || subIn needle rest

/-- Python `needle in hay` on strings. -/
def strIn (needle hay : String) : Bool :=
  subIn needle.data hay.data

/-- Python list indexing `xs[i]` with negative-index wraparound;
`none` models an `IndexError`. -/
def pyIndex (xs : List String) (i : Int) : Option String :=
  let j : Int := if i < 0 then (xs.length : Int) + i else i
  if 0 ≤ j then xs.get? j.toNat else none

/-- Double or single quote, the character class `["']` of the credential
regexes. -/
def isQuoteChar (c : Char) : Bool :=
  c = '"' || c = Char.ofNat 39

/-- One anchored attempt of the credential regex
`key\s*=\s*["'][^"'\n]\x7bminLen,\x7d["']` at the head of `cs`.  The
greedy repetition over `[^"'\n]` is deterministic: it must stop at the
first quote or newline, so backtracking can never produce a different
outcome. -/
def credMatchAt (key : List Char) (minLen : Nat) (cs : List Char) : Bool :=
  key.isPrefixOf cs &&
    (match (cs.drop key.length).dropWhile isPySpace with
     | '=' :: r2 =>
        (match r2.dropWhile isPySpace with
         | q :: r4 =>
            isQuoteChar q &&
              (let run := r4.takeWhile fun c => !(isQuoteChar c) && !(c = '\n')
               decide (minLen ≤ run.length) &&
                 (match r4.drop run.length with
                  | q2 :: _ => isQuoteChar q2
                  | [] => false))
         | [] => false)
     | _ => false)

/-- `re.search` for one credential pattern: try the anchored match at every
suffix. -/
def credSearch (key : List Char) (minLen : Nat) : List Char → Bool
  | [] => credMatchAt key minLen []
  | c :: rest => credMatchAt key minLen (c :: rest) || credSearch key minLen rest

namespace SecurityAnalyzer

/-- `SecuritySeverity` (`security_analyzer.py` lines 14-19). -/
inductive SecuritySeverity where
  | low
  | medium
  | high
  | critical
deriving DecidableEq, Repr

/-- `SecurityIssue` dataclass (`security_analyzer.py` lines 22-30). -/
structure SecurityIssue where
  rule_id : String
  severity : SecuritySeverity
  description : String
  line_number : Int
  code_snippet : String
  recommendation : String
deriving DecidableEq, Repr

/-- Mutable attributes of the `SecurityAnalyzer` visitor
(`security_analyzer.py` lines 36-39).  `imports` is a Python `set`;
insertion order with deduplication models `set.add` faithfully for
everything the analyzer observes (it never reads the set). -/
structure SState where
  issues : List SecurityIssue
  source_lines : List String
  imports : List String
deriving DecidableEq, Repr

/-- `SecurityAnalyzer.add_issue` (lines 41-53).  The guard
`line_number <= len(self.source_lines)` does not exclude zero or negative
line numbers, for which Python's negative indexing applies; `none` models
the `IndexError` raised when even that resolves out of range. -/
def add_issue (st : SState) (rule_id : String) (severity : SecuritySeverity)
    (description : String) (line_number : Int) (recommendation : String) :
    Option SState :=
  match (if line_number ≤ (st.source_lines.length : Int)
         then pyIndex st.source_lines (line_number - 1)
         else some "") with
  | none => none
  | some code_snippet =>
      some { st with issues := st.issues ++
        [{ rule_id := rule_id
           severity := severity
           description := description
           line_number := line_number
           code_snippet := pyStrip code_snippet
           recommendation := recommendation }] }

/-- The `dangerous_imports` dict of `visit_Import` (lines 61-66). -/
def dangerous_imports (nm : String) : Option String :=
  if nm = "pickle" then some "Pickle can execute arbitrary code during deserialization"
  else if nm = "subprocess" then some "Subprocess can lead to command injection vulnerabilities"
  else if nm = "eval" then some "Direct eval usage can execute arbitrary code"
  else if nm = "exec" then some "Direct exec usage can execute arbitrary code"
  else none

/-- The `for alias in node.names` loop of `visit_Import` (lines 57-75). -/
def visitImportNames (lineno : Int) : SState → List String → Option SState
  | st, [] => some st
  | st, a :: rest =>
      let st1 := { st with
        imports := if st.imports.contains a then st.imports else st.imports ++ [a] }
      match dangerous_imports a with
      | some msg =>
          match add_issue st1 ("dangerous_import_" ++ a) .high
              ("Dangerous import: " ++ msg) lineno
              ("Review usage of " ++ a ++ " and consider safer alternatives") with
          | none => none
          | some st2 => visitImportNames lineno st2 rest
      | none => visitImportNames lineno st1 rest

/-- The `for arg in node.args` loop of `visit_Call`'s attribute branch
(lines 117-125): one High finding per argument built with `+` or `%`. -/
def visitExecuteArgs (lineno : Int) : SState → List Node → Option SState
  | st, [] => some st
  | st, arg :: rest =>
      match arg with
      | .binOp _ op _ =>
          if op = .add ∨ op = .mod then
            match add_issue st "potential_sql_injection" .high
                "Potential SQL injection via string concatenation" lineno
                "Use parameterized queries instead of string concatenation" with
            | none => none
            | some st1 => visitExecuteArgs lineno st1 rest
          else visitExecuteArgs lineno st rest
      | _ => visitExecuteArgs lineno st rest

/-- First-match-wins pass over the four credential regexes of `visit_Str`
(lines 134-154).  All four patterns produce the identical finding, so the
`break` after the first hit is observably a disjunction of the four
searches. -/
def credentialHit (value : String) : Bool :=
  credSearch "password".data 3 value.data ||
  credSearch "api_key".data 10 value.data ||
  credSearch "secret".data 10 value.data ||
  credSearch "token".data 10 value.data

/-- `any(keyword in value for keyword in sql_keywords)` (lines 157-158). -/
def sqlKeywordHit (value : String) : Bool :=
  strIn "select " value || strIn "insert " value || strIn "update " value ||
  strIn "delete " value || strIn "drop " value || strIn "create " value

/-- The SQL-keyword stage of `visit_Str` (lines 156-166): its second
disjunct indexes the enclosing source line unguarded (hence the `Option`). -/
def sqlCheck (st1 : SState) (value : String) (lineno : Int) : Option SState :=
  if sqlKeywordHit value then
    if strIn "%s" value then
      add_issue st1 "sql_injection_string" .medium
        "SQL string with potential injection vulnerability" lineno
        "Use parameterized queries for SQL operations"
    else
      match pyIndex st1.source_lines (lineno - 1) with
      | none => none
      | some line =>
          if strIn ".format(" line then
            add_issue st1 "sql_injection_string" .medium
              "SQL string with potential injection vulnerability" lineno
              "Use parameterized queries for SQL operations"
          else some st1
  else some st1

/-- `SecurityAnalyzer.visit_Str` (lines 129-168): the credential check, then
the SQL-keyword stage. -/
def visit_Str (st : SState) (s : String) (lineno : Int) : Option SState :=
  let value := pyLower s
  match (if credentialHit value then
           add_issue st "hardcoded_credentials" .high
             "Potential hardcoded credentials in string literal" lineno
             "Use environment variables or secure config files for credentials"
         else some st) with
  | none => none
  | some st1 => sqlCheck st1 value lineno

/-- Whether an AST node is a bare `ast.Name` (the `isinstance` checks of
`visit_Call`). -/
def isName : Node → Bool
  | .name _ => true
  | _ => false

/-- The checks at the head of `SecurityAnalyzer.visit_Call` (lines 79-126),
before `generic_visit` descends into `func` and `args`. -/
def callChecks (st : SState) (func : Node) (args : List Node) (lineno : Int) :
    Option SState :=
  match func with
  | .name id =>
      if id = "eval" then
        add_issue st "eval_usage" .critical
          "Use of eval() can execute arbitrary code" lineno
          "Replace eval() with ast.literal_eval() or safer parsing"
      else if id = "exec" then
        add_issue st "exec_usage" .critical
          "Use of exec() can execute arbitrary code" lineno
          "Avoid exec() or use restricted execution environments"
      else if id = "input" ∧ args.length = 0 then
        add_issue st "input_without_prompt" .medium
          "input() without prompt can be confusing" lineno
          "Always provide a clear prompt for user input"
      else some st
  | .attribute value attr =>
      if isName value ∧ (attr = "execute" ∨ attr = "executemany") then
        visitExecuteArgs lineno st args
      else some st
  | _ => some st

mutual

/-- One `ast.NodeVisitor.visit` dispatch of `SecurityAnalyzer`: `visit_Import`,
`visit_Call` and `visit_Str` follow the source; every other node kind falls
through to `generic_visit`, which recurses into the children in AST field
order (for a function definition: body before decorator list). -/
def visit (st : SState) : Node → Option SState
  | .module body => visitList st body
  | .functionDef _ body decoratorList =>
      match visitList st body with
      | none => none
      | some st1 => visitList st1 decoratorList
  | .classDef _ body => visitList st body
  | .ifStmt test body orelse =>
      match visit st test with
      | none => none
      | some st1 =>
          match visitList st1 body with
          | none => none
          | some st2 => visitList st2 orelse
  | .whileStmt test body =>
      match visit st test with
      | none => none
      | some st1 => visitList st1 body
  | .forStmt iter body =>
      match visit st iter with
      | none => none
      | some st1 => visitList st1 body
  | .tryStmt body handlers orelse finalbody =>
      match visitList st body with
      | none => none
      | some st1 =>
          match visitHandlers st1 handlers with
          | none => none
          | some st2 =>
              match visitList st2 orelse with
              | none => none
              | some st3 => visitList st3 finalbody
  | .boolOp values => visitList st values
  | .call func args lineno =>
      match callChecks st func args lineno with
      | none => none
      | some st1 =>
          match visit st1 func with
          | none => none
          | some st2 => visitList st2 args
  | .attribute value _ => visit st value
  | .binOp left _ right =>
      match visit st left with
      | none => none
      | some st1 => visit st1 right
  | .exprStmt value => visit st value
  | .importStmt names lineno => visitImportNames lineno st names
  | .importFrom _ _ _ => some st
  | .strLit s lineno => visit_Str st s lineno
  | .name _ => some st
  | .pass => some st

/-- Visiting a list of sibling nodes left to right, propagating a raised
exception. -/
def visitList (st : SState) : List Node → Option SState
  | [] => some st
  | n :: ns =>
      match visit st n with
      | none => none
      | some st1 => visitList st1 ns

/-- Visiting the handler clauses of a `try`. -/
def visitHandlers (st : SState) : List (List Node) → Option SState
  | [] => some st
  | h :: hs =>
      match visitList st h with
      | none => none
      | some st1 => visitHandlers st1 hs

end

end SecurityAnalyzer

/-! ### File-level entry points

`analyze_file_complexity` / `analyze_file_security` take the parser's result
directly (`none` models the `SyntaxError` branch of the Python `try`) together
with the source text already split on newlines, since parsing and file I/O are
out of scope for the core. -/

/-- `ComplexityMetrics` dataclass (`complexity_analyzer.py` lines 22-31);
Python `float` fields are modelled as `ℚ`. -/
structure ComplexityMetrics where
  cyclomatic_complexity : Int
  cognitive_complexity : Int
  halstead_volume : ℚ
  maintainability_index : ℚ
  lines_of_code : Nat
  num_functions : Nat
  num_classes : Nat
deriving DecidableEq, Repr

/-- Non-blank, non-comment line count (`complexity_analyzer.py` line 133). -/
def lines_of_code (lines : List String) : Nat :=
  (lines.filter fun line => !(pyStrip line = "") && !((pyStrip line).startsWith "#")).length

/-- `analyze_file_complexity` (lines 119-149): zero-valued metrics on a
`SyntaxError`, otherwise one traversal plus the derived metrics, with
`maintainability = max(0, 171 - 5.2 * complexity - 0.23 * lines_of_code)`. -/
def analyze_file_complexity (parsed : Option Node) (lines : List String) :
    ComplexityMetrics :=
  match parsed with
  | none => ⟨0, 0, 0, 0, 0, 0, 0⟩
  | some tree =>
      let analyzer := ComplexityAnalyzer.visit ComplexityAnalyzer.initState tree
      let loc := lines_of_code lines
      let halstead_volume : ℚ :=
        (analyzer.halstead_operators.length : ℚ) + (analyzer.halstead_operands.length : ℚ)
      let maintainability : ℚ :=
        max 0 (171 - 52/10 * (analyzer.complexity : ℚ) - 23/100 * (loc : ℚ))
      { cyclomatic_complexity := analyzer.complexity
        cognitive_complexity := analyzer.cognitive_complexity
        halstead_volume := halstead_volume
        maintainability_index := maintainability
        lines_of_code := loc
        num_functions := analyzer.functions.length
        num_classes := analyzer.classes.length }

/-- `analyze_file_security` (`security_analyzer.py` lines 171-185): empty
issue list on a `SyntaxError`, otherwise the issues accumulated by one
traversal (`none` models an uncaught exception during the traversal). -/
def analyze_file_security (parsed : Option Node) (lines : List String) :
    Option (List SecurityAnalyzer.SecurityIssue) :=
  match parsed with
  | none => some []
  | some tree =>
      (SecurityAnalyzer.visit
        { issues := [], source_lines := lines, imports := [] } tree).map
        fun st => st.issues

/-- Rank of a severity tier, `critical` highest (the fixed iteration order of
`generate_security_report`, `security_analyzer.py` lines 203-204). -/
def sevRank : SecurityAnalyzer.SecuritySeverity → Nat
  | .critical => 3
  | .high => 2
  | .medium => 1
  | .low => 0

/-- The order in which `generate_security_report` (lines 188-220) lists the
issues: grouping into `severity_groups` preserves emission order within each
group, and the groups are printed in the fixed order Critical, High, Medium,
Low. -/
def reportOrder (issues : List SecurityAnalyzer.SecurityIssue) :
    List SecurityAnalyzer.SecurityIssue :=
  (issues.filter fun i => i.severity = .critical) ++
  (issues.filter fun i => i.severity = .high) ++
  (issues.filter fun i => i.severity = .medium) ++
  (issues.filter fun i => i.severity = .low)

/-- Word-constituent character (letter, digit or underscore), for the
whole-word matcher the claim describes. -/
def wordChar (c : Char) : Bool :=
  c.isAlphanum || c = '_'

/-- Whether the previous character (if any) permits a word to start here. -/
def boundaryOk : Option Char → Bool
  | none => true
  | some c => !wordChar c

/-- Occurrence of `verb` followed by a space at a word boundary. -/
def wholeWordIn (verb : List Char) : Option Char → List Char → Bool
  | _, [] => false
  | prev, c :: rest =>
      (boundaryOk prev && (verb ++ [' ']).isPrefixOf (c :: rest)) ||
        wholeWordIn verb (some c) rest

/-- Modelled from the claim, not from the source: the SQL-verb test as the
claim states it, "matched as a whole word with a trailing space (so that
words merely containing or prefixing the verb, such as 'unselect ', do not
trigger it)".  Compared against the source's plain substring test
`SecurityAnalyzer.sqlKeywordHit`. -/
def claimWholeWordHit (value : String) : Bool :=
  wholeWordIn "select".data none value.data ||
  wholeWordIn "insert".data none value.data ||
  wholeWordIn "update".data none value.data ||
  wholeWordIn "delete".data none value.data ||
  wholeWordIn "drop".data none value.data ||
  wholeWordIn "create".data none value.data

/-- The `sql_injection_string` finding `visit_Str` emits at a given line. -/
def sql_injection_issue (lineno : Int) (line : String) :
    SecurityAnalyzer.SecurityIssue :=
  { rule_id := "sql_injection_string"
    severity := .medium
    description := "SQL string with potential injection vulnerability"
    line_number := lineno
    code_snippet := pyStrip line
    recommendation := "Use parameterized queries for SQL operations" }

/-- The `hardcoded_credentials` finding `visit_Str` emits at a given line. -/
def hardcoded_credentials_issue (lineno : Int) (line : String) :
    SecurityAnalyzer.SecurityIssue :=
  { rule_id := "hardcoded_credentials"
    severity := .high
    description := "Potential hardcoded credentials in string literal"
    line_number := lineno
    code_snippet := pyStrip line
    recommendation := "Use environment variables or secure config files for credentials" }

/-- Count of Medium `sql_injection_string` findings in an issue list. -/
def sqlFindingCount (issues : List SecurityAnalyzer.SecurityIssue) : Nat :=
  (issues.filter fun i =>
    i.rule_id = "sql_injection_string" ∧ i.severity = .medium).length

/-! ### Concrete source units used by the claim theorems -/

/-- The spec's scenario file: one dangerous import, one function whose body is
a single `if`/`else`:
line 1 `import pickle`, lines 2-6 `def f(x): if x: pass else: pass`. -/
def scenarioTree : Node :=
  .module [.importStmt ["pickle"] 1,
    .functionDef "f" [.ifStmt (.name "x") [.pass] [.pass]] []]

/-- Raw source lines of `scenarioTree`'s file. -/
def scenarioLines : List String :=
  ["import pickle", "def f(x):", "    if x:", "        pass", "    else:", "        pass"]

/-- The one finding the security analysis of the scenario file emits. -/
def scenarioIssue : SecurityAnalyzer.SecurityIssue :=
  { rule_id := "dangerous_import_pickle"
    severity := .high
    description := "Dangerous import: Pickle can execute arbitrary code during deserialization"
    line_number := 1
    code_snippet := "import pickle"
    recommendation := "Review usage of pickle and consider safer alternatives" }

/-- A file whose function carries an `eval(...)` decorator on line 1 and calls
`eval(...)` in its body on line 3.  `generic_visit` reaches a function's body
before its decorator list (the AST field order), so the line-3 finding is
emitted before the line-1 finding of the same Critical tier. -/
def decoratedTree : Node :=
  .module [.functionDef "f"
    [.exprStmt (.call (.name "eval") [.strLit "y" 3] 3)]
    [.call (.name "eval") [.strLit "x" 1] 1]]

/-- Raw source lines of `decoratedTree`'s file. -/
def decoratedLines : List String :=
  ["@eval(\"x\")", "def f():", "    eval(\"y\")"]

/-- The `eval_usage` finding at a given line with a given snippet. -/
def eval_usage_issue (lineno : Int) (snippet : String) :
    SecurityAnalyzer.SecurityIssue :=
  { rule_id := "eval_usage"
    severity := .critical
    description := "Use of eval() can execute arbitrary code"
    line_number := lineno
    code_snippet := snippet
    recommendation := "Replace eval() with ast.literal_eval() or safer parsing" }

/-! ### Helper lemmas: the complexity traversal's bookkeeping -/

namespace ComplexityAnalyzer

mutual

theorem visit_nesting : ∀ (st : CState) (n : Node),
    (visit st n).nesting_level = st.nesting_level
  | st, .module body => by
      rw [visit]; exact visitList_nesting st body
  | st, .pass => by rw [visit]
  | st, .name i => by rw [visit]
  | st, .strLit s l => by rw [visit]
  | st, .importStmt ns l => by rw [visit]
  | st, .importFrom m ns l => by rw [visit]
  | st, .exprStmt v => by rw [visit]; exact visit_nesting st v
  | st, .binOp l o r => by rw [visit]; rw [visit_nesting, visit_nesting]
  | st, .attribute v a => by rw [visit]; exact visit_nesting st v
  | st, .call f args l => by rw [visit]; rw [visitList_nesting, visit_nesting]
  | st, .boolOp values => by rw [visit]; simp only [visitList_nesting]
  | st, .functionDef nm body dec => by
      rw [visit]; simp only [visitList_nesting]
  | st, .classDef nm body => by rw [visit]; simp only [visitList_nesting]
  | st, .ifStmt t b o => by
      rw [visit]; simp only [visitList_nesting, visit_nesting]; omega
  | st, .whileStmt t b => by
      rw [visit]; simp only [visitList_nesting, visit_nesting]; omega
  | st, .forStmt i b => by
      rw [visit]; simp only [visitList_nesting, visit_nesting]; omega
  | st, .tryStmt b h o f => by
      rw [visit]; simp only [visitList_nesting, visitHandlers_nesting]; omega

theorem visitList_nesting : ∀ (st : CState) (l : List Node),
    (visitList st l).nesting_level = st.nesting_level
  | st, [] => by rw [visitList]
  | st, n :: ns => by rw [visitList]; rw [visitList_nesting, visit_nesting]

theorem visitHandlers_nesting : ∀ (st : CState) (hs : List (List Node)),
    (visitHandlers st hs).nesting_level = st.nesting_level
  | st, [] => by rw [visitHandlers]
  | st, h :: hs => by rw [visitHandlers]; rw [visitHandlers_nesting, visitList_nesting]

end

mutual

theorem visit_halstead : ∀ (st : CState) (n : Node),
    (visit st n).halstead_operators = st.halstead_operators ∧
    (visit st n).halstead_operands = st.halstead_operands
  | st, .module body => by
      rw [visit]; exact visitList_halstead st body
  | st, .pass => by rw [visit]; exact ⟨rfl, rfl⟩
  | st, .name i => by rw [visit]; exact ⟨rfl, rfl⟩
  | st, .strLit s l => by rw [visit]; exact ⟨rfl, rfl⟩
  | st, .importStmt ns l => by rw [visit]; exact ⟨rfl, rfl⟩
  | st, .importFrom m ns l => by rw [visit]; exact ⟨rfl, rfl⟩
  | st, .exprStmt v => by rw [visit]; exact visit_halstead st v
  | st, .binOp l o r => by
      rw [visit]
      obtain ⟨h1, h2⟩ := visit_halstead (visit st l) r
      obtain ⟨h3, h4⟩ := visit_halstead st l
      exact ⟨h1.trans h3, h2.trans h4⟩
  | st, .attribute v a => by rw [visit]; exact visit_halstead st v
  | st, .call f args l => by
      rw [visit]
      obtain ⟨h1, h2⟩ := visitList_halstead (visit st f) args
      obtain ⟨h3, h4⟩ := visit_halstead st f
      exact ⟨h1.trans h3, h2.trans h4⟩
  | st, .boolOp values => by
      rw [visit]; simpa using visitList_halstead _ values
  | st, .functionDef nm body dec => by
      rw [visit]
      obtain ⟨h1, h2⟩ := visitList_halstead (visitList _ body) dec
      obtain ⟨h3, h4⟩ := visitList_halstead _ body
      simpa using ⟨h1.trans h3, h2.trans h4⟩
  | st, .classDef nm body => by
      rw [visit]; simpa using visitList_halstead _ body
  | st, .ifStmt t b o => by
      rw [visit]
      obtain ⟨h1, h2⟩ := visitList_halstead (visitList (visit _ t) b) o
      obtain ⟨h3, h4⟩ := visitList_halstead (visit _ t) b
      obtain ⟨h5, h6⟩ := visit_halstead _ t
      simpa using ⟨(h1.trans h3).trans h5, (h2.trans h4).trans h6⟩
  | st, .whileStmt t b => by
      rw [visit]
      obtain ⟨h1, h2⟩ := visitList_halstead (visit _ t) b
      obtain ⟨h3, h4⟩ := visit_halstead _ t
      simpa using ⟨h1.trans h3, h2.trans h4⟩
  | st, .forStmt i b => by
      rw [visit]
      obtain ⟨h1, h2⟩ := visitList_halstead (visit _ i) b
      obtain ⟨h3, h4⟩ := visit_halstead _ i
      simpa using ⟨h1.trans h3, h2.trans h4⟩
  | st, .tryStmt b h o f => by
      rw [visit]
      obtain ⟨h1, h2⟩ := visitList_halstead (visitList (visitHandlers (visitList _ b) h) o) f
      obtain ⟨h3, h4⟩ := visitList_halstead (visitHandlers (visitList _ b) h) o
      obtain ⟨h5, h6⟩ := visitHandlers_halstead (visitList _ b) h
      obtain ⟨h7, h8⟩ := visitList_halstead _ b
      simpa using ⟨((h1.trans h3).trans h5).trans h7, ((h2.trans h4).trans h6).trans h8⟩

theorem visitList_halstead : ∀ (st : CState) (l : List Node),
    (visitList st l).halstead_operators = st.halstead_operators ∧
    (visitList st l).halstead_operands = st.halstead_operands
  | st, [] => by rw [visitList]; exact ⟨rfl, rfl⟩
  | st, n :: ns => by
      rw [visitList]
      obtain ⟨h1, h2⟩ := visitList_halstead (visit st n) ns
      obtain ⟨h3, h4⟩ := visit_halstead st n
      exact ⟨h1.trans h3, h2.trans h4⟩

theorem visitHandlers_halstead : ∀ (st : CState) (hs : List (List Node)),
    (visitHandlers st hs).halstead_operators = st.halstead_operators ∧
    (visitHandlers st hs).halstead_operands = st.halstead_operands
  | st, [] => by rw [visitHandlers]; exact ⟨rfl, rfl⟩
  | st, h :: hs => by
      rw [visitHandlers]
      obtain ⟨h1, h2⟩ := visitHandlers_halstead (visitList st h) hs
      obtain ⟨h3, h4⟩ := visitList_halstead st h
      exact ⟨h1.trans h3, h2.trans h4⟩

end

/-- Visiting a `pass` statement leaves the analyzer state unchanged. -/
theorem visit_pass (st : CState) : visit st .pass = st := by rw [visit]

/-- Visiting any number of `pass` statements leaves the state unchanged. -/
theorem visitList_pass (st : CState) : ∀ n : Nat,
    visitList st (List.replicate n .pass) = st
  | 0 => by rw [List.replicate, visitList]
  | n + 1 => by
      rw [List.replicate, visitList, visit_pass, visitList_pass st n]

/-- Visiting any number of handlers whose bodies are a single `pass` leaves
the state unchanged. -/
theorem visitHandlers_pass (st : CState) : ∀ n : Nat,
    visitHandlers st (List.replicate n [Node.pass]) = st
  | 0 => by rw [List.replicate, visitHandlers]
  | n + 1 => by
      rw [List.replicate, visitHandlers]
      show visitHandlers (visitList st [Node.pass]) _ = st
      rw [visitList, visit_pass, visitList, visitHandlers_pass st n]

end ComplexityAnalyzer

/-! ### Claim theorems -/

/-- C2, counterexample.  The claim says a `try`'s cyclomatic increment counts
the else and finally *clauses* (+1 each), independent of how many statements
their bodies contain.  The source adds `len(node.orelse) + len(node.finalbody)`,
the number of *statements*: on a `try` with 2 handler clauses, a 2-statement
else body and a 1-statement finally body, the visit yields complexity
1 + 5 = 6, not the claimed 1 + (2 + 1 + 1) = 5. -/
theorem claim_C2_counterexample :
    (ComplexityAnalyzer.visit ComplexityAnalyzer.initState
      (.tryStmt [.pass] [[.pass], [.pass]] [.pass, .pass] [.pass])).complexity = 6 ∧
    ¬ ((ComplexityAnalyzer.visit ComplexityAnalyzer.initState
      (.tryStmt [.pass] [[.pass], [.pass]] [.pass, .pass] [.pass])).complexity
        = 1 + (2 + 1 + 1)) := by
  decide

/-- C2, amended.  Visiting a `try` construct adds to the current scope's
cyclomatic complexity exactly (number of handler clauses) + (number of
statements in the else body) + (number of statements in the finally body);
in particular a try with 2 handler clauses and single-statement else and
finally bodies adds exactly 4. -/
theorem claim_C2_amended :
    (∀ (st : ComplexityAnalyzer.CState) (nb nh ne nf : Nat),
      (ComplexityAnalyzer.visit st
        (.tryStmt (List.replicate nb .pass) (List.replicate nh [Node.pass])
          (List.replicate ne .pass) (List.replicate nf .pass))).complexity
        = st.complexity + nh + ne + nf) ∧
    (ComplexityAnalyzer.visit ComplexityAnalyzer.initState
      (.tryStmt [.pass] [[.pass], [.pass]] [.pass] [.pass])).complexity = 1 + 4 := by
  constructor
  · intro st nb nh ne nf
    rw [ComplexityAnalyzer.visit]
    simp only [ComplexityAnalyzer.visitList_pass, ComplexityAnalyzer.visitHandlers_pass,
      List.length_replicate]
  · decide

/-- C6: for every successfully parsed file the maintainability index is
`max 0 (171 - 5.2 * rootComplexity - 0.23 * linesOfCode)` and hence never
negative. -/
theorem claim_C6 : ∀ (tree : Node) (lines : List String),
    (analyze_file_complexity (some tree) lines).maintainability_index =
      max 0 (171 - 52/10 *
          ((ComplexityAnalyzer.visit ComplexityAnalyzer.initState tree).complexity : ℚ)
        - 23/100 * (lines_of_code lines : ℚ)) ∧
    0 ≤ (analyze_file_complexity (some tree) lines).maintainability_index := by
  intro tree lines
  refine ⟨rfl, ?_⟩
  exact le_max_left 0 _

/-- C7: the traversal never touches the Halstead operator/operand collections,
so the reported Halstead volume of every successfully parsed file is 0. -/
theorem claim_C7 : ∀ (tree : Node) (lines : List String),
    (analyze_file_complexity (some tree) lines).halstead_volume = 0 := by
  intro tree lines
  show ((ComplexityAnalyzer.visit ComplexityAnalyzer.initState tree).halstead_operators.length : ℚ)
      + ((ComplexityAnalyzer.visit ComplexityAnalyzer.initState tree).halstead_operands.length : ℚ)
      = 0
  obtain ⟨h1, h2⟩ := ComplexityAnalyzer.visit_halstead ComplexityAnalyzer.initState tree
  rw [h1, h2]
  norm_num [ComplexityAnalyzer.initState]

/-- C8: a file that fails to parse (`SyntaxError`) yields the all-zero
`ComplexityMetrics` record and the empty finding list, without an error. -/
theorem claim_C8 : ∀ lines : List String,
    analyze_file_complexity none lines = ⟨0, 0, 0, 0, 0, 0, 0⟩ ∧
    analyze_file_security none lines = some [] :=
  fun _ => ⟨rfl, rfl⟩

/-- C9: scope and nesting bookkeeping is balanced.  Visiting any construct
from any state returns the nesting level to its value before the visit, so a
complete traversal from the initial state ends with nesting level 0; and a
function definition folds its fresh scope's totals additively onto the saved
enclosing counters. -/
theorem claim_C9 :
    (∀ (st : ComplexityAnalyzer.CState) (n : Node),
      (ComplexityAnalyzer.visit st n).nesting_level = st.nesting_level) ∧
    (∀ tree : Node,
      (ComplexityAnalyzer.visit ComplexityAnalyzer.initState tree).nesting_level = 0) ∧
    (∀ (st : ComplexityAnalyzer.CState) (nm : String) (body dec : List Node),
      (ComplexityAnalyzer.visit st (.functionDef nm body dec)).complexity =
        st.complexity +
          (ComplexityAnalyzer.visitList
            (ComplexityAnalyzer.visitList
              { st with functions := st.functions ++ [nm]
                        complexity := 1
                        cognitive_complexity := 0 } body) dec).complexity ∧
      (ComplexityAnalyzer.visit st (.functionDef nm body dec)).cognitive_complexity =
        st.cognitive_complexity +
          (ComplexityAnalyzer.visitList
            (ComplexityAnalyzer.visitList
              { st with functions := st.functions ++ [nm]
                        complexity := 1
                        cognitive_complexity := 0 } body) dec).cognitive_complexity) := by
  refine ⟨ComplexityAnalyzer.visit_nesting,
    fun tree => (ComplexityAnalyzer.visit_nesting _ tree).trans rfl, ?_⟩
  intro st nm body dec
  rw [ComplexityAnalyzer.visit]
  exact ⟨rfl, rfl⟩

/-- C1, counterexample.  On the scenario file (one dangerous import, one
function whose body is a single if/else) the reported cyclomatic complexity
is 3, not the claimed 2: the function scope's total of 2 is folded
*additively* onto the enclosing root scope's base complexity 1. -/
theorem claim_C1_counterexample :
    (analyze_file_complexity (some scenarioTree) scenarioLines).cyclomatic_complexity = 3 ∧
    ¬ ((analyze_file_complexity (some scenarioTree) scenarioLines).cyclomatic_complexity
        = 2) := by
  decide

/-- C1, amended.  The scenario file yields cyclomaticComplexity = 3 (the
function's 2 plus the root scope's base 1), cognitiveComplexity = 1 and
functionCount = 1, and its security analysis yields exactly one finding: the
High-severity dangerous-import finding for `pickle`. -/
theorem claim_C1_amended :
    (analyze_file_complexity (some scenarioTree) scenarioLines).cyclomatic_complexity = 3 ∧
    (analyze_file_complexity (some scenarioTree) scenarioLines).cognitive_complexity = 1 ∧
    (analyze_file_complexity (some scenarioTree) scenarioLines).num_functions = 1 ∧
    analyze_file_security (some scenarioTree) scenarioLines = some [scenarioIssue] ∧
    scenarioIssue.severity = .high := by
  decide

/-- C10: dangerous-import detection inspects only plain `import` statements.
Visiting an `ImportFrom` node (e.g. `from pickle import loads`) is a no-op of
the security analyzer's state, and a file whose only statement is such a
from-import yields no findings at all. -/
theorem claim_C10 :
    (∀ (st : SecurityAnalyzer.SState) (m : String) (ns : List String) (ln : Int),
      SecurityAnalyzer.visit st (.importFrom m ns ln) = some st) ∧
    analyze_file_security (some (.module [.importFrom "pickle" ["loads"] 1]))
      ["from pickle import loads"] = some [] := by
  constructor
  · intro st m ns ln
    rw [SecurityAnalyzer.visit]
  · decide

/-! ### Helper lemmas: `pyIndex` and `add_issue` -/

/-- A valid 1-indexed line number resolves through `pyIndex` without
wraparound. -/
theorem pyIndex_in_range (xs : List String) (ln : Int) (line : String)
    (h1 : 1 ≤ ln) (h2 : xs.get? (ln - 1).toNat = some line) :
    pyIndex xs (ln - 1) = some line := by
  unfold pyIndex
  rw [if_neg (by omega : ¬ (ln - 1 < 0))]
  rw [if_pos (by omega : (0:Int) ≤ ln - 1)]
  exact h2

/-- A `some` answer from `get?` bounds the index by the length. -/
theorem get?_lt_length {xs : List String} {n : Nat} {line : String}
    (h : xs.get? n = some line) : n < xs.length := by
  by_contra hn
  rw [List.get?_eq_none.mpr (Nat.le_of_not_lt hn)] at h
  exact Option.noConfusion h

namespace SecurityAnalyzer

/-- `add_issue` at a valid 1-indexed line number appends exactly one issue
whose snippet is the stripped raw source line. -/
theorem add_issue_in_range (st : SState) (rid : String) (sev : SecuritySeverity)
    (d : String) (ln : Int) (rc : String) (line : String)
    (h1 : 1 ≤ ln) (h2 : st.source_lines.get? (ln - 1).toNat = some line) :
    add_issue st rid sev d ln rc =
      some { st with issues := st.issues ++ [⟨rid, sev, d, ln, pyStrip line, rc⟩] } := by
  have hlt : (ln - 1).toNat < st.source_lines.length := get?_lt_length h2
  unfold add_issue
  rw [if_pos (by omega : ln ≤ (st.source_lines.length : Int))]
  rw [pyIndex_in_range _ _ _ h1 h2]

end SecurityAnalyzer

/-- C5, counterexample.  The claim says every out-of-range line number
(including zero and negative) degrades to an empty snippet without failing.
In the source the guard `line_number <= len(self.source_lines)` lets zero and
negative line numbers through to Python's negative indexing: with source
lines `["a", " b "]`, line number 0 produces the snippet "b" (the stripped
*last* line), not ""; and with no source lines at all, line number 0 raises
an `IndexError` instead of degrading. -/
theorem claim_C5_counterexample :
    SecurityAnalyzer.add_issue ⟨[], ["a", " b "], []⟩ "r" .low "d" 0 "rc" =
      some ⟨[⟨"r", .low, "d", 0, "b", "rc"⟩], ["a", " b "], []⟩ ∧
    ¬ ("b" = "") ∧
    SecurityAnalyzer.add_issue ⟨[], [], []⟩ "r" .low "d" 0 "rc" = none := by
  decide

/-- C5, amended.  For a 1-indexed line number within range the snippet is the
stripped raw source line; for a line number beyond the last line it is the
empty string; for a line number ≤ 0 Python's negative indexing applies, so
the snippet is the stripped line at offset `length + lineNumber - 1` when
that is in range, and otherwise the emission fails with an `IndexError`. -/
theorem claim_C5_amended :
    ∀ (st : SecurityAnalyzer.SState) (rid : String)
      (sev : SecurityAnalyzer.SecuritySeverity) (d : String) (ln : Int) (rc : String),
    (∀ line : String, 1 ≤ ln → st.source_lines.get? (ln - 1).toNat = some line →
      SecurityAnalyzer.add_issue st rid sev d ln rc =
        some { st with issues := st.issues ++ [⟨rid, sev, d, ln, pyStrip line, rc⟩] }) ∧
    ((st.source_lines.length : Int) < ln →
      SecurityAnalyzer.add_issue st rid sev d ln rc =
        some { st with issues := st.issues ++ [⟨rid, sev, d, ln, "", rc⟩] }) ∧
    (∀ line : String, ln ≤ 0 → 0 ≤ (st.source_lines.length : Int) + ln - 1 →
      st.source_lines.get? ((st.source_lines.length : Int) + ln - 1).toNat = some line →
      SecurityAnalyzer.add_issue st rid sev d ln rc =
        some { st with issues := st.issues ++ [⟨rid, sev, d, ln, pyStrip line, rc⟩] }) ∧
    (ln ≤ 0 → (st.source_lines.length : Int) + ln - 1 < 0 →
      SecurityAnalyzer.add_issue st rid sev d ln rc = none) := by
  intro st rid sev d ln rc
  refine ⟨fun line h1 h2 => SecurityAnalyzer.add_issue_in_range st rid sev d ln rc line h1 h2,
    ?_, ?_, ?_⟩
  · intro hgt
    unfold SecurityAnalyzer.add_issue
    rw [if_neg (by omega : ¬ ln ≤ (st.source_lines.length : Int))]
    rfl
  · intro line hle hnn h2
    unfold SecurityAnalyzer.add_issue pyIndex
    rw [if_pos (by omega : ln ≤ (st.source_lines.length : Int))]
    simp only [if_pos (by omega : ln - 1 < 0)]
    rw [if_pos (by omega : (0:Int) ≤ (st.source_lines.length : Int) + (ln - 1))]
    rw [show ((st.source_lines.length : Int) + (ln - 1)).toNat
          = ((st.source_lines.length : Int) + ln - 1).toNat by omega]
    rw [h2]
  · intro hle hneg
    unfold SecurityAnalyzer.add_issue pyIndex
    rw [if_pos (by omega : ln ≤ (st.source_lines.length : Int))]
    simp only [if_pos (by omega : ln - 1 < 0)]
    rw [if_neg (by omega : ¬ (0:Int) ≤ (st.source_lines.length : Int) + (ln - 1))]

/-- C5, witness: the amended theorem applied at line number 1 of the
single-line file `["  hi  "]`. -/
theorem claim_C5_witness :
    SecurityAnalyzer.add_issue ⟨[], ["  hi  "], []⟩ "r" .low "d" 1 "rc" =
      some ⟨[⟨"r", .low, "d", 1, "hi", "rc"⟩], ["  hi  "], []⟩ :=
  (claim_C5_amended ⟨[], ["  hi  "], []⟩ "r" .low "d" 1 "rc").1 "  hi  "
    (by decide) (by decide)

/-! ### Helper lemmas: full characterization of `visit_Str` at a valid line -/

/-- The SQL stage appends the Medium `sql_injection_string` finding exactly
when a SQL keyword occurs in `value` (substring test) and either `%s` occurs
in `value` or `.format(` occurs in the enclosing source line. -/
theorem sqlCheck_spec (st1 : SecurityAnalyzer.SState) (value : String) (ln : Int)
    (line : String) (h1 : 1 ≤ ln)
    (h2 : st1.source_lines.get? (ln - 1).toNat = some line) :
    SecurityAnalyzer.sqlCheck st1 value ln = some
      { st1 with issues := st1.issues ++
          (if SecurityAnalyzer.sqlKeywordHit value &&
                (strIn "%s" value || strIn ".format(" line)
            then [sql_injection_issue ln line] else []) } := by
  have hpy : pyIndex st1.source_lines (ln - 1) = some line :=
    pyIndex_in_range _ _ _ h1 h2
  unfold SecurityAnalyzer.sqlCheck
  cases hq : SecurityAnalyzer.sqlKeywordHit value
  · simp
  · cases hp : strIn "%s" value
    · simp only [Bool.false_eq_true, if_false, hpy]
      cases hf : strIn ".format(" line
      · simp
      · rw [SecurityAnalyzer.add_issue_in_range st1 _ _ _ _ _ line h1 h2]
        simp [sql_injection_issue]
    · rw [SecurityAnalyzer.add_issue_in_range st1 _ _ _ _ _ line h1 h2]
      simp [sql_injection_issue]

/-- Visiting a string literal at a valid 1-indexed line appends the High
credential finding when a credential pattern matches, then the Medium
`sql_injection_string` finding exactly when the source's substring-based SQL
condition holds. -/
theorem visit_Str_spec (st : SecurityAnalyzer.SState) (s : String) (ln : Int)
    (line : String) (h1 : 1 ≤ ln)
    (h2 : st.source_lines.get? (ln - 1).toNat = some line) :
    SecurityAnalyzer.visit_Str st s ln = some
      { st with issues := st.issues
          ++ (if SecurityAnalyzer.credentialHit (pyLower s)
              then [hardcoded_credentials_issue ln line] else [])
          ++ (if SecurityAnalyzer.sqlKeywordHit (pyLower s) &&
                (strIn "%s" (pyLower s) || strIn ".format(" line)
              then [sql_injection_issue ln line] else []) } := by
  unfold SecurityAnalyzer.visit_Str
  cases hc : SecurityAnalyzer.credentialHit (pyLower s)
  · simp only [hc, Bool.false_eq_true, if_false]
    rw [sqlCheck_spec st (pyLower s) ln line h1 h2]
    simp
  · simp only [hc, if_true]
    rw [SecurityAnalyzer.add_issue_in_range st _ _ _ _ _ line h1 h2]
    show SecurityAnalyzer.sqlCheck _ (pyLower s) ln = _
    rw [sqlCheck_spec
      { st with issues := st.issues ++
          [⟨"hardcoded_credentials", .high,
            "Potential hardcoded credentials in string literal", ln, pyStrip line,
            "Use environment variables or secure config files for credentials"⟩] }
      (pyLower s) ln line h1 h2]
    simp [hardcoded_credentials_issue]

/-- `sqlFindingCount` distributes over append. -/
theorem sqlFindingCount_append (a b : List SecurityAnalyzer.SecurityIssue) :
    sqlFindingCount (a ++ b) = sqlFindingCount a + sqlFindingCount b := by
  simp [sqlFindingCount, List.filter_append]

/-- No findings in the empty list. -/
theorem sqlFindingCount_nil : sqlFindingCount [] = 0 := rfl

/-- A credential finding is not a Medium `sql_injection_string` finding. -/
theorem sqlFindingCount_cred (ln : Int) (line : String) :
    sqlFindingCount [hardcoded_credentials_issue ln line] = 0 := by
  simp [sqlFindingCount, hardcoded_credentials_issue]

/-- A `sql_injection_issue` is one Medium `sql_injection_string` finding. -/
theorem sqlFindingCount_sql (ln : Int) (line : String) :
    sqlFindingCount [sql_injection_issue ln line] = 1 := by
  simp [sqlFindingCount, sql_injection_issue]

/-- C4, counterexample.  The claim's whole-word matcher must not fire on
`"unselect %s"` (the claim names `'unselect '` as a word that does not
trigger), yet the source's plain substring test does fire and the Medium
`sql_injection_string` finding is emitted for that literal. -/
theorem claim_C4_counterexample :
    SecurityAnalyzer.visit_Str ⟨[], ["q = \"unselect %s\""], []⟩ "unselect %s" 1 =
      some ⟨[sql_injection_issue 1 "q = \"unselect %s\""], ["q = \"unselect %s\""], []⟩ ∧
    (sql_injection_issue 1 "q = \"unselect %s\"").severity = .medium ∧
    (sql_injection_issue 1 "q = \"unselect %s\"").rule_id = "sql_injection_string" ∧
    claimWholeWordHit (pyLower "unselect %s") = false := by
  decide

/-- C4, amended.  For a string literal at a valid 1-indexed line, the Medium
`sql_injection_string` finding is emitted exactly when the lowercased text
contains one of `select `/`insert `/`update `/`delete `/`drop `/`create ` as
a plain substring (trailing space required, but no leading word boundary, so
words merely containing the verb such as `unselect ` also trigger it) and
either `%s` occurs in the lowercased literal or `.format(` occurs in the
enclosing raw source line. -/
theorem claim_C4_amended :
    ∀ (st : SecurityAnalyzer.SState) (s : String) (ln : Int) (line : String),
      1 ≤ ln → st.source_lines.get? (ln - 1).toNat = some line →
      ∃ st', SecurityAnalyzer.visit_Str st s ln = some st' ∧
        (sqlFindingCount st'.issues = sqlFindingCount st.issues + 1 ↔
          (SecurityAnalyzer.sqlKeywordHit (pyLower s) = true ∧
            (strIn "%s" (pyLower s) = true ∨ strIn ".format(" line = true))) ∧
        (¬ (SecurityAnalyzer.sqlKeywordHit (pyLower s) = true ∧
              (strIn "%s" (pyLower s) = true ∨ strIn ".format(" line = true)) →
          sqlFindingCount st'.issues = sqlFindingCount st.issues) := by
  intro st s ln line h1 h2
  refine ⟨_, visit_Str_spec st s ln line h1 h2, ?_, ?_⟩ <;>
  · simp only [sqlFindingCount_append]
    cases hc : SecurityAnalyzer.credentialHit (pyLower s) <;>
    cases hq : SecurityAnalyzer.sqlKeywordHit (pyLower s) <;>
    cases hp : strIn "%s" (pyLower s) <;>
    cases hf : strIn ".format(" line <;>
    simp [sqlFindingCount_cred, sqlFindingCount_sql, sqlFindingCount_nil]

/-- C4, witness: the amended theorem applied to the literal `"select %s"` on
line 1 of the one-line file `["query"]`. -/
theorem claim_C4_witness :
    (1:Int) ≤ 1 ∧
    (SecurityAnalyzer.SState.mk [] ["query"] []).source_lines.get?
      ((1:Int) - 1).toNat = some "query" ∧
    (∃ st', SecurityAnalyzer.visit_Str ⟨[], ["query"], []⟩ "select %s" 1 = some st' ∧
      (sqlFindingCount st'.issues =
          sqlFindingCount (SecurityAnalyzer.SState.mk [] ["query"] []).issues + 1 ↔
        (SecurityAnalyzer.sqlKeywordHit (pyLower "select %s") = true ∧
          (strIn "%s" (pyLower "select %s") = true ∨ strIn ".format(" "query" = true))) ∧
      (¬ (SecurityAnalyzer.sqlKeywordHit (pyLower "select %s") = true ∧
            (strIn "%s" (pyLower "select %s") = true ∨ strIn ".format(" "query" = true)) →
        sqlFindingCount st'.issues =
          sqlFindingCount (SecurityAnalyzer.SState.mk [] ["query"] []).issues)) :=
  ⟨by decide, by decide,
    claim_C4_amended ⟨[], ["query"], []⟩ "select %s" 1 "query" (by decide) (by decide)⟩

/-! ### Helper lemmas: report ordering -/

/-- Members of a severity-filtered group carry that severity. -/
theorem mem_sev_filter (issues : List SecurityAnalyzer.SecurityIssue)
    (s : SecurityAnalyzer.SecuritySeverity) (a : SecurityAnalyzer.SecurityIssue)
    (ha : a ∈ issues.filter (fun i => i.severity = s)) : a.severity = s :=
  of_decide_eq_true (List.mem_filter.mp ha).2

/-- Requiring the same severity twice filters the same group. -/
theorem filter_sev_self (issues : List SecurityAnalyzer.SecurityIssue)
    (s : SecurityAnalyzer.SecuritySeverity) :
    (issues.filter fun a => decide (a.severity = s) && decide (a.severity = s)) =
      issues.filter fun a => decide (a.severity = s) := by
  apply List.filter_congr
  intro a _
  exact Bool.and_self _

/-- Requiring two different severities filters out everything. -/
theorem filter_sev_ne (issues : List SecurityAnalyzer.SecurityIssue)
    (s t : SecurityAnalyzer.SecuritySeverity) (h : s ≠ t) :
    (issues.filter fun a => decide (a.severity = s) && decide (a.severity = t)) = [] := by
  apply List.filter_eq_nil_iff.mpr
  intro a _
  simp only [Bool.and_eq_true, decide_eq_true_eq, not_and]
  intro h1 h2
  exact h (h1.symm.trans h2)

/-- C3, counterexample.  The claim requires non-decreasing line numbers
within a severity tier.  On the decorated-function file the two Critical
`eval_usage` findings appear in the report as line 3 then line 1, because the
traversal reaches the function body before the decorator list and the report
keeps emission order within a tier. -/
theorem claim_C3_counterexample :
    (analyze_file_security (some decoratedTree) decoratedLines).map reportOrder =
      some [eval_usage_issue 3 "eval(\"y\")", eval_usage_issue 1 "@eval(\"x\")"] ∧
    (eval_usage_issue 3 "eval(\"y\")").severity =
      (eval_usage_issue 1 "@eval(\"x\")").severity ∧
    ¬ ((eval_usage_issue 3 "eval(\"y\")").line_number ≤
        (eval_usage_issue 1 "@eval(\"x\")").line_number) := by
  decide

/-- C3, amended.  The report lists findings grouped by severity tier in the
fixed order Critical, High, Medium, Low (severity ranks are non-increasing
along the report), and within each tier it preserves the emission (traversal)
order — which is not necessarily non-decreasing in line number.  The
ordering is a pure function of the issue list, hence deterministic for
identical input. -/
theorem claim_C3_amended : ∀ issues : List SecurityAnalyzer.SecurityIssue,
    (reportOrder issues).Pairwise
      (fun a b => sevRank b.severity ≤ sevRank a.severity) ∧
    (∀ s : SecurityAnalyzer.SecuritySeverity,
      (reportOrder issues).filter (fun i => i.severity = s) =
        issues.filter (fun i => i.severity = s)) := by
  intro issues
  have hp : ∀ s : SecurityAnalyzer.SecuritySeverity,
      (issues.filter (fun i => i.severity = s)).Pairwise
        (fun a b => sevRank b.severity ≤ sevRank a.severity) := by
    intro s
    apply List.pairwise_of_forall_mem_list
    intro a ha b hb
    rw [mem_sev_filter issues s a ha, mem_sev_filter issues s b hb]
  constructor
  · simp only [reportOrder, List.pairwise_append, List.mem_append]
    refine ⟨⟨⟨hp _, hp _, ?_⟩, hp _, ?_⟩, hp _, ?_⟩
    · intro a ha b hb
      rw [mem_sev_filter _ _ _ ha, mem_sev_filter _ _ _ hb]
      decide
    · intro a ha b hb
      rcases ha with ha | ha <;>
        rw [mem_sev_filter _ _ _ ha, mem_sev_filter _ _ _ hb] <;> decide
    · intro a ha b hb
      rcases ha with (ha | ha) | ha <;>
        rw [mem_sev_filter _ _ _ ha, mem_sev_filter _ _ _ hb] <;> decide
  · intro s
    cases s <;>
    · simp only [reportOrder, List.filter_append, List.filter_filter]
      rw [filter_sev_self, filter_sev_ne _ _ _ (by decide),
        filter_sev_ne _ _ _ (by decide), filter_sev_ne _ _ _ (by decide)]
      simp
